import Mathlib

/-!
Verification development for the `rocksdb-cloud` optimistic-transaction layer.

The development shallowly embeds:
* the AWS retry strategy `AwsRetryStrategy::ShouldRetry` and the client
  configuration `AwsCloudOptions::GetClientConfiguration`
  (src/include/rocksdb/cloud/cloud_optimistic_transaction_db.h, third part);
* the two `CloudOptimisticTransactionDB::Open` overloads
  (src/unnamed/part_000);
* the optimistic-transaction engine that the example program in the header
  exercises (its implementation lives outside src/, so it is modelled from
  the spec, anchored on the behaviour the example program asserts).
-/

namespace RocksDBCloud

/-! ## Status codes (rocksdb `Status`, restricted to the codes the claims use) -/

inductive Status where
  | ok
  | busy
  | notFound
  | ioError
  | notSupported
deriving Repr, DecidableEq

/-! ## AWS retry strategy

Embeds `AwsRetryStrategy::ShouldRetry` from the third part of
src/include/rocksdb/cloud/cloud_optimistic_transaction_db.h (lines 162-201).
Only the fields the decision reads are modelled: the error type and the
error message (the exception name and HTTP response code are only logged).
-/

/-- The `Aws::Client::CoreErrors` values that appear in the source, plus a
representative for any other error type. -/
inductive CoreErrors where
  | INTERNAL_FAILURE
  | UNKNOWN
  | ACCESS_DENIED
  | EXPIRED_TOKEN
  | NETWORK_CONNECTION
deriving Repr, DecidableEq

/-- Model of `Aws::Client::AWSError`: the error type and message, the only
inputs `ShouldRetry` branches on. -/
structure AWSError where
  errorType : CoreErrors
  message : String
deriving Repr, DecidableEq

/-- `pat` occurs as a contiguous run inside `l`: `pat` is a prefix of some
suffix of `l`. -/
def listHasInfix (pat : List Char) : List Char → Bool
  | [] => decide (pat = [])
  | c :: rest => decide (pat = (c :: rest).take pat.length) || listHasInfix pat rest

/-- `err.find("try again") != std::string::npos`: the message contains the
substring "try again". -/
def containsTryAgain (s : String) : Bool :=
  listHasInfix "try again".data s.data

/-- `internal_failure_num_retries_`, the `const int` member initialised
to 10 in the class body (line 155). -/
def internal_failure_num_retries : Int := 10

/-- The condition of the first `if` in `ShouldRetry` (lines 173-175):
`ce == CoreErrors::INTERNAL_FAILURE || ce == CoreErrors::UNKNOWN ||
err.find("try again") != npos`. -/
def internalFailureCond (e : AWSError) : Bool :=
  e.errorType == .INTERNAL_FAILURE || e.errorType == .UNKNOWN ||
    containsTryAgain e.message

/-- A retry strategy, as a pure decision function: the model of the
`default_strategy_` member (an exchangeable `Aws::Client::RetryStrategy`).
`attemptedRetries` is a C++ `long`, modelled as `Int`. -/
def RetryDecision : Type := AWSError → Int → Bool

/-- `AwsRetryStrategy::ShouldRetry` (lines 162-201): on the internal-failure
condition, retry exactly while `attemptedRetries <= internal_failure_num_retries_`;
otherwise delegate to the configured default strategy. The `Log` calls have
no effect on the decision and are omitted. -/
def ShouldRetry (default_strategy : RetryDecision) (error : AWSError)
    (attemptedRetries : Int) : Bool :=
  if internalFailureCond error then
    decide (attemptedRetries ≤ internal_failure_num_retries)
  else
    default_strategy error attemptedRetries

/-- Modelled from the spec: the spec classifies an error as
*transient-internal* when it is "internal server error, or a message
indicating try again'"; the internal server error of `Aws::Client::CoreErrors`
is `INTERNAL_FAILURE`. This definition follows the spec's words, to be
compared with `internalFailureCond`, the condition the code tests. -/
def specTransientInternal (e : AWSError) : Bool :=
  e.errorType == .INTERNAL_FAILURE || containsTryAgain e.message

/-! ## Client configuration

Embeds `AwsCloudOptions::GetClientConfiguration` (lines 214-229 of the same
part, `USE_AWS` branch). -/

/-- The one field of `CloudFileSystemOptions` the function reads. -/
structure CloudFileSystemOptions where
  request_timeout_ms : Nat
deriving Repr, DecidableEq

/-- The fields of `Aws::Client::ClientConfiguration` the function writes
(the retry strategy is modelled as a flag recording that it was installed). -/
structure ClientConfiguration where
  connectTimeoutMs : Nat
  requestTimeoutMs : Nat
  region : String
  retryStrategyInstalled : Bool
deriving Repr, DecidableEq

/-- `AwsCloudOptions::GetClientConfiguration`: sets
`connectTimeoutMs = 30000`, `requestTimeoutMs = 600000`, installs the
retry strategy, then overrides `requestTimeoutMs` with
`cloud_fs_options.request_timeout_ms` when that is nonzero, sets the
region, and returns `Status::OK()`. The mutations are applied to the
out-parameter `config` in source order. -/
def GetClientConfiguration (opts : CloudFileSystemOptions) (region : String)
    (config : ClientConfiguration) : Status × ClientConfiguration :=
  let c := { config with connectTimeoutMs := 30000 }
  let c := { c with requestTimeoutMs := 600000 }
  let c := { c with retryStrategyInstalled := true }
  let c := if opts.request_timeout_ms ≠ 0 then
      { c with requestTimeoutMs := opts.request_timeout_ms }
    else c
  let c := { c with region := region }
  (Status.ok, c)

/-! ## `CloudOptimisticTransactionDB::Open`

Embeds the two overloads from src/unnamed/part_000 (lines 33-97). The
underlying `DBCloud::Open` is external; it is a parameter of the model,
given as the descriptor list it receives together with its outcome. -/

/-- The two `ColumnFamilyOptions` fields the memtable-history adjustment
reads and writes (C++ `int64_t` / `int`, modelled as `Int`). -/
structure ColumnFamilyOptions where
  max_write_buffer_size_to_maintain : Int
  max_write_buffer_number_to_maintain : Int
deriving Repr, DecidableEq

/-- `ColumnFamilyDescriptor`: a column family name with its options. -/
structure ColumnFamilyDescriptor where
  name : String
  options : ColumnFamilyOptions
deriving Repr, DecidableEq

/-- The body of the `for` loop over `column_families_copy` (lines 72-81):
when both maintain options are 0, set `max_write_buffer_size_to_maintain`
to -1. -/
def enableMemTableHistory (cf : ColumnFamilyDescriptor) : ColumnFamilyDescriptor :=
  if cf.options.max_write_buffer_size_to_maintain = 0 ∧
      cf.options.max_write_buffer_number_to_maintain = 0 then
    { cf with options :=
        { cf.options with max_write_buffer_size_to_maintain := -1 } }
  else cf

/-- The two descriptor lists of the multi-column-family `Open` (lines 68-85):
first the local `column_families_copy` after the adjustment loop, second the
list actually passed to `DBCloud::Open` at line 84, which is the caller's
`column_families`, not the copy. -/
def openDescriptorLists (column_families : List ColumnFamilyDescriptor) :
    List ColumnFamilyDescriptor × List ColumnFamilyDescriptor :=
  let column_families_copy := column_families.map enableMemTableHistory
  (column_families_copy, column_families)

/-- Model of an opened `DBCloud` handle: the data the tail of `Open`
reads from it (`GetDbIdentity`, `GetName`, `GetOptions().info_log`). -/
structure DBCloudHandle where
  dbid : String
  name : String
deriving Repr, DecidableEq

/-- The `CloudOptimisticTransactionDBImpl` the success path constructs,
wrapping the opened handle. -/
structure CloudOptimisticTransactionDBImpl where
  db_cloud : DBCloudHandle
deriving Repr, DecidableEq

/-- Tail of the multi-column-family `Open` (lines 83-97), after
`DBCloud::Open` has produced either a handle or a failing status.
`dbptr0` is the value of the out-parameter `*dbptr` before the call.
The C++ local `db` starts as `nullptr` and is assigned only by a
successful `DBCloud::Open`; the final `Log` call reads
`db->GetOptions().info_log` and `db->GetName()` unconditionally, so on
the failure path it dereferences a null pointer: the model returns `none`
(undefined behaviour / crash) there, and otherwise `some` of the returned
status paired with the final value of `*dbptr`. -/
def openTail (underlying : Except Status DBCloudHandle)
    (dbptr0 : Option CloudOptimisticTransactionDBImpl) :
    Option (Status × Option CloudOptimisticTransactionDBImpl) :=
  match underlying with
  | .ok h => some (Status.ok, some ⟨h⟩)
  | .error st =>
      -- db == nullptr here; Log(..., db->GetOptions().info_log, ...,
      -- db->GetName().c_str(), ...) dereferences it before `return st;`
      -- can run.
      (none : Option DBCloudHandle).map fun _ => (st, dbptr0)

/-! ## Optimistic transaction engine

The engine behind `OptimisticTransactionDB` (`BeginTransaction`, `Get`,
`GetForUpdate`, `Put`, `SetSnapshot`, `Commit`) is implemented outside
src/ (in `utilities/transactions/`); src/ holds only its declarations and
the example program that exercises it. It is therefore modelled from the
spec (§3, §4.1), anchored on the behaviour the example program asserts
(fourth part of src/include/rocksdb/cloud/cloud_optimistic_transaction_db.h,
lines 348-479). -/

/-- Keys and values are byte strings. -/
abbrev Key := String

/-- Values are byte strings. -/
abbrev Value := String

/-- Modelled from the spec: "SequenceNumber: unsigned monotonically
increasing integer". -/
abbrev SequenceNumber := Nat

/-- Modelled from the spec: one committed mutation of the global store,
carrying its assigned `SequenceNumber`; `oval = none` is a `Delete`
tombstone. -/
structure CommittedWrite where
  key : Key
  oval : Option Value
  seq : SequenceNumber
deriving Repr, DecidableEq

/-- Modelled from the spec: the global store, as the history of committed
mutations (newest first) together with the last assigned sequence number
(the Snapshot Authority's counter). -/
structure Store where
  history : List CommittedWrite
  seq : SequenceNumber
deriving Repr, DecidableEq

/-- The freshly opened, empty store. -/
def Store.empty : Store := ⟨[], 0⟩

/-- The `SequenceNumber` of the most recent commit affecting `k`
(0 when no commit has touched `k`; sequence numbers of real commits
start at 1). -/
def latestSeq (st : Store) (k : Key) : SequenceNumber :=
  ((st.history.find? fun w => w.key == k).map CommittedWrite.seq).getD 0

/-- The value of `k` visible at snapshot `snap` (`none` = read the
globally-latest committed state): the most recent committed write to `k`
with sequence number at most the snapshot. -/
def readAt (st : Store) (snap : Option SequenceNumber) (k : Key) : Option Value :=
  match st.history.find? fun w =>
      w.key == k && (match snap with
        | some s => decide (w.seq ≤ s)
        | none => true) with
  | some w => w.oval
  | none => none

/-- One entry of a transaction's write-buffer: a `Put` (`oval = some v`)
or a `Delete` (`oval = none`). -/
structure WriteOp where
  key : Key
  oval : Option Value
deriving Repr, DecidableEq

/-- Applies a write-buffer atomically: each operation is appended to the
history with the next sequence number. -/
def applyWriteBatch (st : Store) (ops : List WriteOp) : Store :=
  ops.foldl (fun s op =>
    { history := ⟨op.key, op.oval, s.seq + 1⟩ :: s.history,
      seq := s.seq + 1 }) st

/-- A non-transactional `db->Put`: commits the single write immediately. -/
def Store.put (st : Store) (k : Key) (v : Value) : Store :=
  applyWriteBatch st [⟨k, some v⟩]

/-- A non-transactional `db->Get`: reads the globally-latest committed
value. -/
def Store.get (st : Store) (k : Key) : Option Value :=
  readAt st none k

/-- Modelled from the spec: one entry of a transaction's tracked-key set,
`(key, SequenceNumber observed)`; `readOnly` records whether the key was
only ever read-for-update, never written. -/
structure TrackedKey where
  key : Key
  seq : SequenceNumber
  readOnly : Bool
deriving Repr, DecidableEq

/-- Modelled from the spec: a transaction: held snapshot (`none` until one
is set), tracked-key set, and ordered write-buffer. -/
structure Transaction where
  snapshot : Option SequenceNumber
  tracked : List TrackedKey
  writes : List WriteOp
deriving Repr, DecidableEq

/-- Records `k` in the tracked set at sequence `s`: a key already present
keeps the smallest sequence seen for it, and stays read-only exactly when
every recording of it was read-only. -/
def trackKey (tracked : List TrackedKey) (k : Key) (s : SequenceNumber)
    (ro : Bool) : List TrackedKey :=
  if tracked.any fun e => e.key == k then
    tracked.map fun e =>
      if e.key == k then ⟨e.key, min e.seq s, e.readOnly && ro⟩ else e
  else
    tracked ++ [⟨k, s, ro⟩]

/-- Modelled from the spec: `BeginTransaction` allocates a fresh
transaction, bound to the current sequence number when
`txn_options.set_snapshot` is true. -/
def BeginTransaction (st : Store) (set_snapshot : Bool) : Transaction :=
  ⟨if set_snapshot then some st.seq else none, [], []⟩

/-- The sequence number at which a key is tracked: the transaction's
snapshot when one is set, else the store's current sequence number. -/
def trackSeq (t : Transaction) (st : Store) : SequenceNumber :=
  t.snapshot.getD st.seq

/-- The transaction's own buffered write to `k`, if any (the last one in
buffer order). -/
def Transaction.ownWrite (t : Transaction) (k : Key) : Option (Option Value) :=
  (t.writes.reverse.find? fun op => op.key == k).map WriteOp.oval

/-- Modelled from the spec: `Get` inside a transaction: the transaction's
own buffered write wins, else the committed value visible at the
transaction's snapshot (or the latest, when no snapshot is held). Does
not touch the tracked-key set. -/
def TxnGet (st : Store) (t : Transaction) (k : Key) : Option Value :=
  match t.ownWrite k with
  | some ov => ov
  | none => readAt st t.snapshot k

/-- Modelled from the spec: `GetForUpdate`: reads like `Get` and
additionally records `(k, sequence-at-read)` in the tracked set as a
read-only entry. -/
def GetForUpdate (st : Store) (t : Transaction) (k : Key) :
    Option Value × Transaction :=
  (TxnGet st t k,
   { t with tracked := trackKey t.tracked k (trackSeq t st) true })

/-- Modelled from the spec together with the source example's asserted
behaviour: `Put` appends to the write-buffer and also records the written
key in the tracked set (the example at lines 348-373 asserts that a
transaction whose only action on "abc" was `Put` fails to commit with
`Busy` after an external write to "abc", so written keys participate in
conflict detection). -/
def TxnPut (st : Store) (t : Transaction) (k : Key) (v : Value) : Transaction :=
  { t with
    tracked := trackKey t.tracked k (trackSeq t st) false,
    writes := t.writes ++ [⟨k, some v⟩] }

/-- Modelled from the spec: `SetSnapshot` re-pins the snapshot to the
current sequence number. -/
def SetSnapshot (st : Store) (t : Transaction) : Transaction :=
  { t with snapshot := some st.seq }

/-- Modelled from the spec: commit-time validation: every tracked key must
not have been touched by a commit with sequence number greater than the
one recorded for it. -/
def checkKeysForConflicts (st : Store) (tracked : List TrackedKey) : Bool :=
  tracked.all fun e => decide (latestSeq st e.key ≤ e.seq)

/-- Modelled from the spec: `Commit`: validate the tracked-key set against
the current committed state; on success apply the write-buffer atomically,
on conflict return `Busy` and leave the store unchanged. -/
def Commit (st : Store) (t : Transaction) : Status × Store :=
  if checkKeysForConflicts st t.tracked then
    (Status.ok, applyWriteBatch st t.writes)
  else
    (Status.busy, st)

/-- The read-set in the sense of the spec's conflict-detection rule: the
tracked entries recorded by `GetForUpdate` and never written, i.e. the
read-only entries. -/
def readSet (t : Transaction) : List TrackedKey :=
  t.tracked.filter (·.readOnly)

/-- A concrete default strategy that always retries; used to observe
whether `ShouldRetry` consulted the default strategy. -/
def alwaysRetry : RetryDecision := fun _ _ => true

/-! ## Helper lemmas -/

/-- The conflict check passes exactly when no tracked key has been touched
by a more recent commit. -/
theorem checkKeys_eq_true_iff (st : Store) (tracked : List TrackedKey) :
    checkKeysForConflicts st tracked = true ↔
      ∀ e ∈ tracked, latestSeq st e.key ≤ e.seq := by
  unfold checkKeysForConflicts
  rw [List.all_eq_true]
  simp

/-- `Commit` succeeds exactly when no tracked key has been touched by a
more recent commit. -/
theorem commit_eq_ok_iff (st : Store) (t : Transaction) :
    (Commit st t).1 = Status.ok ↔ ∀ e ∈ t.tracked, latestSeq st e.key ≤ e.seq := by
  rw [← checkKeys_eq_true_iff]
  unfold Commit
  by_cases h : checkKeysForConflicts st t.tracked = true
  · rw [if_pos h]
    simp [h]
  · rw [if_neg h]
    simp [h]

/-- A `Commit` that does not succeed returns `Busy`. -/
theorem commit_fst_eq_busy_of_not_ok (st : Store) (t : Transaction)
    (h : ¬ (Commit st t).1 = Status.ok) : (Commit st t).1 = Status.busy := by
  unfold Commit at *
  by_cases hc : checkKeysForConflicts st t.tracked = true
  · rw [if_pos hc] at h
    exact absurd rfl h
  · rw [if_neg hc]

/-- A `Commit` that returns `Busy` leaves the store unchanged. -/
theorem commit_busy_store_unchanged (st : Store) (t : Transaction)
    (h : (Commit st t).1 = Status.busy) : (Commit st t).2 = st := by
  unfold Commit at *
  by_cases hc : checkKeysForConflicts st t.tracked = true
  · rw [if_pos hc] at h
    exact absurd h (by simp)
  · rw [if_neg hc]

/-- A single tracked entry that a more recent commit has overwritten
forces `Commit` to return `Busy`. -/
theorem commit_busy_of_stale (st : Store) (t : Transaction) (e : TrackedKey)
    (he : e ∈ t.tracked) (hs : e.seq < latestSeq st e.key) :
    (Commit st t).1 = Status.busy := by
  apply commit_fst_eq_busy_of_not_ok
  rw [commit_eq_ok_iff]
  intro hall
  exact Nat.lt_irrefl e.seq (Nat.lt_of_lt_of_le hs (hall e he))

/-- Tracking a key that no existing entry mentions appends a fresh entry. -/
theorem trackKey_of_fresh (tracked : List TrackedKey) (k : Key)
    (s : SequenceNumber) (ro : Bool) (h : ∀ e ∈ tracked, e.key ≠ k) :
    trackKey tracked k s ro = tracked ++ [⟨k, s, ro⟩] := by
  unfold trackKey
  have ha : (tracked.any fun e => e.key == k) = false := by
    rw [List.any_eq_false]
    intro e he
    simp [h e he]
  rw [ha]
  simp

/-- After a non-transactional put of `k`, the most recent commit affecting
`k` carries the new sequence number. -/
theorem latestSeq_put_self (st : Store) (k : Key) (v : Value) :
    latestSeq (st.put k v) k = st.seq + 1 := by
  simp [Store.put, applyWriteBatch, latestSeq]

/-- A non-transactional put advances the sequence counter by one. -/
theorem seq_put (st : Store) (k : Key) (v : Value) :
    (st.put k v).seq = st.seq + 1 := rfl

/-! ## Claim theorems -/

/-- C1 (counterexample): a transaction that wrote "abc" via `Put` but never
read any key for update has an empty read-set, so the claim's rule
("commit succeeds iff every read-set entry is still current") says its
commit must succeed; after an external commit to "abc" the commit
nevertheless returns `Busy`. -/
theorem c1_counterexample :
    readSet (TxnPut Store.empty (BeginTransaction Store.empty false) "abc" "xyz") = [] ∧
    (Commit (Store.empty.put "abc" "def")
        (TxnPut Store.empty (BeginTransaction Store.empty false) "abc" "xyz")).1
      = Status.busy := by
  decide

/-- C1 (amended): commit succeeds exactly when every entry of the
tracked-key set — keys recorded by `GetForUpdate` and keys written through
`Put` — was last touched by a commit with sequence number at most the
recorded one; and a `Busy` commit leaves the global store unchanged, so
the store afterwards reflects only the other transaction's write. -/
theorem c1_commit_iff_tracked_valid (st : Store) (t : Transaction) :
    ((Commit st t).1 = Status.ok ↔ ∀ e ∈ t.tracked, latestSeq st e.key ≤ e.seq) ∧
    ((Commit st t).1 = Status.busy → (Commit st t).2 = st) :=
  ⟨commit_eq_ok_iff st t, commit_busy_store_unchanged st t⟩

/-- C1 witness: the amended statement evaluated on a concrete conflicted
transaction: its `Busy` commit leaves the external write in place. -/
theorem c1_commit_iff_tracked_valid_witness :
    (Commit (Store.empty.put "abc" "def")
        (TxnPut Store.empty (BeginTransaction Store.empty false) "abc" "xyz")).2
      = Store.empty.put "abc" "def" :=
  (c1_commit_iff_tracked_valid (Store.empty.put "abc" "def")
      (TxnPut Store.empty (BeginTransaction Store.empty false) "abc" "xyz")).2
    (by decide)

/-- C2: for an error the spec classifies transient-internal (an internal
server error, or a message indicating "try again"), `ShouldRetry` returns
true at every attempt count from 1 through 10 and false from 11 on,
whatever the configured default strategy. -/
theorem c2_retry_bound (d : RetryDecision) (e : AWSError) (n : Int)
    (h : specTransientInternal e = true) :
    (1 ≤ n → n ≤ 10 → ShouldRetry d e n = true) ∧
    (11 ≤ n → ShouldRetry d e n = false) := by
  have hc : internalFailureCond e = true := by
    simp only [specTransientInternal, Bool.or_eq_true] at h
    simp only [internalFailureCond, Bool.or_eq_true]
    tauto
  constructor
  · intro h1 h10
    unfold ShouldRetry
    rw [if_pos hc]
    simp only [internal_failure_num_retries, decide_eq_true_eq]
    omega
  · intro h11
    unfold ShouldRetry
    rw [if_pos hc]
    simp only [internal_failure_num_retries, decide_eq_false_iff_not]
    omega

/-- C2 witness: the bound evaluated on a concrete internal-failure error at
attempt counts 5 and 11. -/
theorem c2_retry_bound_witness :
    ShouldRetry alwaysRetry ⟨CoreErrors.INTERNAL_FAILURE, ""⟩ 5 = true ∧
    ShouldRetry alwaysRetry ⟨CoreErrors.INTERNAL_FAILURE, ""⟩ 11 = false :=
  ⟨(c2_retry_bound alwaysRetry ⟨CoreErrors.INTERNAL_FAILURE, ""⟩ 5 (by decide)).1
      (by decide) (by decide),
   (c2_retry_bound alwaysRetry ⟨CoreErrors.INTERNAL_FAILURE, ""⟩ 11 (by decide)).2
      (by decide)⟩

/-- C3 (counterexample): the transaction wrote "abc" via `Put` and never
read any key for update (no tracked entry is read-only); an unrelated
writer then commits to "abc"; the transaction's commit returns `Busy`
instead of succeeding, refuting blind-write non-conflict. -/
theorem c3_counterexample :
    ((TxnPut (Store.empty.put "xyz" "zzz")
        (BeginTransaction (Store.empty.put "xyz" "zzz") false) "abc" "xyz").tracked.all
      fun e => !e.readOnly) = true ∧
    (Commit ((Store.empty.put "xyz" "zzz").put "abc" "def")
        (TxnPut (Store.empty.put "xyz" "zzz")
          (BeginTransaction (Store.empty.put "xyz" "zzz") false) "abc" "xyz")).1
      = Status.busy := by
  decide

/-- C3 (amended): keys written via `Put` participate in conflict detection:
when another writer's commit touches a tracked key after the transaction
recorded it, `Commit` fails with `Busy` and the store keeps only the other
writer's effect. -/
theorem c3_put_key_conflicts (st : Store) (t : Transaction) (e : TrackedKey)
    (he : e ∈ t.tracked) (hs : e.seq < latestSeq st e.key) :
    (Commit st t).1 = Status.busy ∧ (Commit st t).2 = st := by
  have hb := commit_busy_of_stale st t e he hs
  exact ⟨hb, commit_busy_store_unchanged st t hb⟩

/-- C3 witness: the amended statement evaluated on the blind-write
scenario of the Read Committed example. -/
theorem c3_put_key_conflicts_witness :
    (Commit (Store.empty.put "abc" "def")
        (TxnPut Store.empty (BeginTransaction Store.empty false) "abc" "xyz")).1
      = Status.busy ∧
    (Commit (Store.empty.put "abc" "def")
        (TxnPut Store.empty (BeginTransaction Store.empty false) "abc" "xyz")).2
      = Store.empty.put "abc" "def" :=
  c3_put_key_conflicts (Store.empty.put "abc" "def")
    (TxnPut Store.empty (BeginTransaction Store.empty false) "abc" "xyz")
    ⟨"abc", 0, false⟩ (by decide) (by decide)

/-- C4: the Read Committed end-to-end scenario: on a fresh store,
`T1.Get("abc")` is `NotFound`; `T1.Put("abc","xyz")` is buffered; a
non-transactional `Put("abc","def")` commits outside `T1`; then
`T1.Commit()` returns `Busy` and a subsequent plain `Get("abc")` returns
"def". -/
theorem c4_read_committed_scenario :
    TxnGet Store.empty (BeginTransaction Store.empty false) "abc" = none ∧
    (Commit (Store.empty.put "abc" "def")
        (TxnPut Store.empty (BeginTransaction Store.empty false) "abc" "xyz")).1
      = Status.busy ∧
    ((Commit (Store.empty.put "abc" "def")
        (TxnPut Store.empty (BeginTransaction Store.empty false) "abc" "xyz")).2).get
        "abc"
      = some "def" := by
  decide

/-- C5: after `SetSnapshot`, a `GetForUpdate` on a key `k` no existing
entry tracks anchors `k` to the new sequence: against the store whose
last write to `k` happened before the new snapshot was taken the commit
succeeds (provided the previously tracked entries are themselves still
current), while after one further external commit to `k` — made after the
new snapshot — it returns `Busy`. -/
theorem c5_snapshot_advancement (st0 : Store) (t : Transaction) (k : Key)
    (v v' : Value)
    (hprior : ∀ e ∈ t.tracked, latestSeq (st0.put k v) e.key ≤ e.seq)
    (hfresh : ∀ e ∈ t.tracked, e.key ≠ k) :
    (Commit (st0.put k v)
        (GetForUpdate (st0.put k v) (SetSnapshot (st0.put k v) t) k).2).1
      = Status.ok ∧
    (Commit ((st0.put k v).put k v')
        (GetForUpdate (st0.put k v) (SetSnapshot (st0.put k v) t) k).2).1
      = Status.busy := by
  have htracked :
      (GetForUpdate (st0.put k v) (SetSnapshot (st0.put k v) t) k).2.tracked
        = t.tracked ++ [⟨k, (st0.put k v).seq, true⟩] := by
    simp only [GetForUpdate, SetSnapshot, trackSeq, Option.getD_some]
    exact trackKey_of_fresh t.tracked k (st0.put k v).seq true hfresh
  constructor
  · rw [commit_eq_ok_iff, htracked]
    intro e he
    rcases List.mem_append.mp he with hl | hr
    · exact hprior e hl
    · rw [List.mem_singleton.mp hr]
      rw [latestSeq_put_self, seq_put]
  · apply commit_busy_of_stale _ _ ⟨k, (st0.put k v).seq, true⟩
    · rw [htracked]
      exact List.mem_append_right _ (List.mem_singleton.mpr rfl)
    · rw [latestSeq_put_self, seq_put]
      exact Nat.lt_succ_self _

/-- C5 witness: the Monotonic Atomic Views flow on key "y": external write
"z" before the advanced snapshot commits fine, a further external write
after it forces `Busy`. -/
theorem c5_snapshot_advancement_witness :
    (Commit (Store.empty.put "y" "z")
        (GetForUpdate (Store.empty.put "y" "z")
          (SetSnapshot (Store.empty.put "y" "z")
            (BeginTransaction Store.empty true)) "y").2).1
      = Status.ok ∧
    (Commit ((Store.empty.put "y" "z").put "y" "w")
        (GetForUpdate (Store.empty.put "y" "z")
          (SetSnapshot (Store.empty.put "y" "z")
            (BeginTransaction Store.empty true)) "y").2).1
      = Status.busy :=
  c5_snapshot_advancement Store.empty (BeginTransaction Store.empty true) "y" "z" "w"
    (by decide) (by decide)

/-- C6 (counterexample): the error of type `UNKNOWN` with an empty message
is not transient-internal under the spec's classification
(`specTransientInternal`), so by the claim it would be delegated to the
default strategy; with the always-retry default at attempt count 11
delegation would return true, yet `ShouldRetry` returns false: the
internal-failure fast path handled it. -/
theorem c6_counterexample :
    specTransientInternal ⟨CoreErrors.UNKNOWN, ""⟩ = false ∧
    alwaysRetry ⟨CoreErrors.UNKNOWN, ""⟩ 11 = true ∧
    ShouldRetry alwaysRetry ⟨CoreErrors.UNKNOWN, ""⟩ 11 = false := by
  decide

/-- C6 (amended): `ShouldRetry` decides independently of the configured
default strategy — by the attempt-count bound — exactly for the errors
satisfying the code's internal-failure condition: error type
`INTERNAL_FAILURE` or `UNKNOWN`, or a message containing "try again". -/
theorem c6_fast_path_class (e : AWSError) :
    (∀ (d₁ d₂ : RetryDecision) (n : Int),
        ShouldRetry d₁ e n = ShouldRetry d₂ e n)
      ↔ internalFailureCond e = true := by
  constructor
  · intro h
    by_contra hb
    have hf : internalFailureCond e = false := by
      cases hx : internalFailureCond e
      · rfl
      · exact absurd hx hb
    have h2 := h (fun _ _ => true) (fun _ _ => false) 0
    simp [ShouldRetry, hf] at h2
  · intro hc d₁ d₂ n
    unfold ShouldRetry
    rw [if_pos hc, if_pos hc]

/-- C7 (counterexample): the `UNKNOWN`-typed error with message "disk
full" is not transient-internal under the spec's classification, so the
claim requires its decision to match the default strategy bit-for-bit;
with the always-retry default at attempt count 12 the default returns
true while `ShouldRetry` returns false. -/
theorem c7_counterexample :
    specTransientInternal ⟨CoreErrors.UNKNOWN, "disk full"⟩ = false ∧
    alwaysRetry ⟨CoreErrors.UNKNOWN, "disk full"⟩ 12 = true ∧
    ShouldRetry alwaysRetry ⟨CoreErrors.UNKNOWN, "disk full"⟩ 12 = false := by
  decide

/-- C7 (amended): for every error that fails the code's internal-failure
condition (type neither `INTERNAL_FAILURE` nor `UNKNOWN`, message without
"try again"), `ShouldRetry` returns exactly the configured default
strategy's decision, at every attempt count. -/
theorem c7_delegates_to_default (d : RetryDecision) (e : AWSError) (n : Int)
    (h : internalFailureCond e = false) :
    ShouldRetry d e n = d e n := by
  unfold ShouldRetry
  rw [if_neg (by simp [h])]

/-- C7 witness: delegation observed on an access-denied error. -/
theorem c7_delegates_to_default_witness :
    ShouldRetry alwaysRetry ⟨CoreErrors.ACCESS_DENIED, "denied"⟩ 3
      = alwaysRetry ⟨CoreErrors.ACCESS_DENIED, "denied"⟩ 3 :=
  c7_delegates_to_default alwaysRetry ⟨CoreErrors.ACCESS_DENIED, "denied"⟩ 3 (by decide)

/-- C8 (counterexample): the connect timeout is not overridable: no
configuration, region, or prior configuration state makes
`GetClientConfiguration` produce a connect timeout other than 30000 ms. -/
theorem c8_counterexample :
    ¬ ∃ (o : CloudFileSystemOptions) (r : String) (c : ClientConfiguration),
        (GetClientConfiguration o r c).2.connectTimeoutMs ≠ 30000 := by
  rintro ⟨o, r, c, h⟩
  apply h
  by_cases ho : o.request_timeout_ms = 0 <;>
    simp [GetClientConfiguration, ho]

/-- C8 (amended): `GetClientConfiguration` returns OK, always sets the
connect timeout to 30000 ms (not configurable), installs the retry
strategy, records the region, and sets the request timeout to the
configured `request_timeout_ms` when that is nonzero and to 600000 ms
otherwise. -/
theorem c8_timeouts (o : CloudFileSystemOptions) (r : String)
    (c : ClientConfiguration) :
    (GetClientConfiguration o r c).1 = Status.ok ∧
    (GetClientConfiguration o r c).2.connectTimeoutMs = 30000 ∧
    (GetClientConfiguration o r c).2.requestTimeoutMs
      = (if o.request_timeout_ms ≠ 0 then o.request_timeout_ms else 600000) ∧
    (GetClientConfiguration o r c).2.region = r ∧
    (GetClientConfiguration o r c).2.retryStrategyInstalled = true := by
  by_cases ho : o.request_timeout_ms = 0 <;>
    simp [GetClientConfiguration, ho]

/-- C9: on a successful underlying `DBCloud::Open` the out-parameter is
assigned the new `CloudOptimisticTransactionDBImpl` wrapper; but on a
failing one the function does not return the failure status with `dbptr`
unassigned: the unconditional `Log` call dereferences the null `db`
pointer first (`none` models that undefined behaviour). -/
theorem c9_open_tail_behaviour :
    openTail (Except.ok ⟨"dbid42", "/tmp/db"⟩) none
      = some (Status.ok, some ⟨⟨"dbid42", "/tmp/db"⟩⟩) ∧
    openTail (Except.error Status.ioError) none = none :=
  ⟨rfl, rfl⟩

/-- C10: the multi-column-family `Open` passes the caller's descriptors to
`DBCloud::Open` unchanged; the memtable-history adjustment lands only in
the local copy, which on a descriptor with both maintain options 0 really
differs from the caller's list. -/
theorem c10_descriptors_passed_unchanged :
    (∀ cfs : List ColumnFamilyDescriptor, (openDescriptorLists cfs).2 = cfs) ∧
    (openDescriptorLists [⟨"default", ⟨0, 0⟩⟩]).1 = [⟨"default", ⟨-1, 0⟩⟩] :=
  ⟨fun _ => rfl, by decide⟩

end RocksDBCloud
